import Mathlib

/-!
Verification of the markd live-reload pipeline and path validator.

The definitions below are a shallow embedding of the Python sources under
`src/markd/`:

* `src/markd/security/path_validator.py` — `validate_path`, `is_safe_path`;
* `src/markd/config/models.py` — `WatcherEvent` with its predicates, and
  `WebSocketConnection.send_reload`;
* `src/markd/server/app.py` — `_handle_file_change` (the thread-to-loop
  bridge) and the fixed 403 bodies of the HTTP handlers;
* `src/markd/config/settings.py` — the numeric configuration constants.

Filesystem-dependent behaviour (`pathlib.Path.resolve(strict=False)`,
`Path.exists`) is embedded against an explicit tree of nodes (`Node`) so
that symlink and `..` resolution are modelled exactly as `os.path.realpath`
performs them: components are processed left to right against the already
resolved prefix, `..` drops the last resolved component, symlinks are
expanded (relative targets against the symlink's parent) with a fuel bound
standing in for the OS loop limit.
-/

/-- A `pathlib` path value: an absolute-path flag plus the name components
(Python's `Path.parts` minus the leading `/` anchor).  `pathlib` drops `.`
components and empty components at construction time and keeps `..`. -/
structure PyPath where
  isAbs : Bool
  segs : List String
deriving DecidableEq, Repr

/-- A node of the modelled filesystem: a regular file, a directory with
named children, or a symbolic link holding a target path. -/
inductive Node where
  | file : Node
  | dir : List (String × Node) → Node
  | symlink : PyPath → Node

/-- Follow name components downward from a node without any resolution:
the raw directory lookup used both by resolution (to inspect one
component) and by the `exists` check on an already canonical path. -/
def lookupFrom (n : Node) : List String → Option Node
  | [] => some n
  | s :: rest =>
    match n with
    | .dir es =>
      match es.lookup s with
      | some c => lookupFrom c rest
      | none => none
    | _ => none

/-- Core of `os.path.realpath` (hence of `Path.resolve(strict=False)`):
resolve the components `segs` against the already canonical absolute
prefix `base` inside filesystem `fs`.  `.` is skipped, `..` removes the
last resolved component, an existing symlink component is expanded by
splicing its target components in front of the remaining ones (a relative
target resolves against the current prefix, an absolute target against
the root), and any other component — directory, file, or nonexistent —
is appended as-is.  Each processed component consumes one unit of fuel;
`none` means the fuel bound was hit before the components were consumed
(the OS analogue is the symlink-loop limit). -/
def resolveSegs (fs : Node) : Nat → List String → List String → Option (List String)
  | _, base, [] => some base
  | 0, _, _ => none
  | fuel + 1, base, s :: rest =>
    if s = "." then resolveSegs fs fuel base rest
    else if s = ".." then resolveSegs fs fuel base.dropLast rest
    else
      match lookupFrom fs (base ++ [s]) with
      | some (.symlink t) =>
        resolveSegs fs fuel (if t.isAbs then [] else base) (t.segs ++ rest)
      | _ => resolveSegs fs fuel (base ++ [s]) rest

/-- `Path.resolve(strict=False)`: make the path absolute against the
(canonical) current working directory `cwd`, then canonicalize. -/
def resolveP (fs : Node) (cwd : List String) (fuel : Nat) (p : PyPath) :
    Option (List String) :=
  resolveSegs fs fuel [] (if p.isAbs then p.segs else cwd ++ p.segs)

/-- The `root_path / requested_path` join of `pathlib`: joining with an
absolute right operand discards the left operand entirely. -/
def joinP (root req : PyPath) : PyPath :=
  if req.isAbs then req else ⟨root.isAbs, root.segs ++ req.segs⟩

/-- `Path.exists` on an already canonical absolute path: the node is
present in the tree. -/
def existsPath (fs : Node) (segs : List String) : Bool :=
  (lookupFrom fs segs).isSome

/-- Render a `PyPath` the way `str(Path(...))` does. -/
def pathStr (p : PyPath) : String :=
  if p.isAbs then "/" ++ String.intercalate "/" p.segs
  else if p.segs.isEmpty then "." else String.intercalate "/" p.segs

/-- Message of the `SecurityError` raised by `validate_path`
(`f-string Access denied: \x7brequested_path\x7d is outside serve root`). -/
def secMsg (requested : PyPath) : String :=
  "Access denied: " ++ pathStr requested ++ " is outside serve root"

/-- Message of the `FileNotFoundError` raised by `validate_path`
(`f-string Path not found: \x7brequested_path\x7d`). -/
def notFoundMsg (requested : PyPath) : String :=
  "Path not found: " ++ pathStr requested

/-- Outcome of `validate_path`: normal return of the resolved absolute
path, or one of its two raised exceptions. -/
inductive ValidateResult where
  | ok : List String → ValidateResult
  | securityError : String → ValidateResult
  | notFound : String → ValidateResult
deriving DecidableEq, Repr

/-- `validate_path(requested_path, root_path)` from
`src/markd/security/path_validator.py`: resolve the root and the join
`root_path / requested_path` (both `strict=False`), raise `SecurityError`
when the resolved request is not `is_relative_to` the resolved root,
raise `FileNotFoundError` when it is contained but does not exist, and
return the resolved path otherwise.  `none` models only fuel exhaustion
during resolution (symlink chains deeper than the OS bound). -/
def validate_path (fs : Node) (cwd : List String) (fuel : Nat)
    (requested root : PyPath) : Option ValidateResult :=
  match resolveP fs cwd fuel root, resolveP fs cwd fuel (joinP root requested) with
  | some absRoot, some absReq =>
    if absRoot.isPrefixOf absReq then
      if existsPath fs absReq then some (.ok absReq)
      else some (.notFound (notFoundMsg requested))
    else some (.securityError (secMsg requested))
  | _, _ => none

/-- `is_safe_path(requested_path, root_path)`: call `validate_path`,
return `True` on normal return and `False` when it raises
`SecurityError` or `FileNotFoundError`. -/
def is_safe_path (fs : Node) (cwd : List String) (fuel : Nat)
    (requested root : PyPath) : Bool :=
  match validate_path fs cwd fuel requested root with
  | some (.ok _) => true
  | _ => false

/-- Index of the last occurrence of character `c` in the character list,
accumulator style: the Lean rendering of Python's `str.rfind`. -/
def rfindIdx (c : Char) : List Char → Nat → Option Nat → Option Nat
  | [], _, acc => acc
  | x :: rest, i, acc => rfindIdx c rest (i + 1) (if x = c then some i else acc)

/-- `PurePath.suffix` from `pathlib`: with `i = name.rfind(".")`, return
`name[i:]` when `0 < i < len(name) - 1`, else the empty string (so
dotfiles such as `.bashrc` and names with only a trailing dot have no
suffix). -/
def pySuffix (name : String) : String :=
  let cs := name.toList
  match rfindIdx '.' cs 0 none with
  | some i => if 0 < i ∧ i + 1 < cs.length then String.mk (cs.drop i) else ""
  | none => ""

/-- Lower-case one character: `str.lower` restricted to ASCII, which is
all the extension comparison in `is_markdown_file` ever distinguishes. -/
def charLower (c : Char) : Char :=
  if 'A' ≤ c ∧ c ≤ 'Z' then Char.ofNat (c.toNat + 32) else c

/-- `str.lower` over the characters of a string (ASCII range). -/
def strLower (s : String) : String := String.mk (s.toList.map charLower)

/-- `PurePath.name`: the final path component, or the empty string when
there is none. -/
def pyName (p : PyPath) : String := (p.segs.getLast?).getD ""

/-- `PurePath.parts`: for an absolute path the leading anchor is itself
the first part. -/
def pyParts (p : PyPath) : List String :=
  (if p.isAbs then ["/"] else []) ++ p.segs

/-- `WatcherEvent` from `src/markd/config/models.py`: event type string
(`created`/`modified`/`deleted`/`moved`), absolute file path, and the
float timestamp (embedded as a rational). -/
structure WatcherEvent where
  event_type : String
  file_path : PyPath
  timestamp : ℚ
deriving DecidableEq, Repr

/-- `WatcherEvent.is_markdown_file`:
`self.file_path.suffix.lower() in (".md", ".markdown")`. -/
def WatcherEvent.is_markdown_file (e : WatcherEvent) : Bool :=
  let s := strLower (pySuffix (pyName e.file_path))
  s = ".md" || s = ".markdown"

/-- `WatcherEvent.should_trigger_reload`: markdown file, or some element
of `("templates", "static")` occurs among `self.file_path.parts`. -/
def WatcherEvent.should_trigger_reload (e : WatcherEvent) : Bool :=
  e.is_markdown_file ||
    (["templates", "static"].any fun part => (pyParts e.file_path).contains part)

/-- `DEBOUNCE_DELAY_MS` from `src/markd/config/settings.py`; `create_app`
passes the same value (150) as `debounce_ms` to the file observer. -/
def DEBOUNCE_DELAY_MS : Nat := 150

/-- A JSON value, as much of it as the websocket payloads need. -/
inductive Json where
  | null : Json
  | str : String → Json
  | obj : List (String × Json) → Json

/-- Field access in a JSON object. -/
def jsonField (j : Json) (key : String) : Option Json :=
  match j with
  | .obj fields => fields.lookup key
  | _ => none

/-- `WebSocketConnection.send_reload` payload from
`src/markd/config/models.py`: the dict
`\x7b"type": "reload", "path": str(path) if path else None\x7d` handed to
`websocket.send_json` (a `Path` object is always truthy, so only `None`
maps to the JSON null). -/
def send_reload_payload (path : Option PyPath) : Json :=
  .obj [("type", .str "reload"),
        ("path", match path with
                 | some p => .str (pathStr p)
                 | none => .null)]

/-- `WebSocketConnection.send_error` payload from
`src/markd/config/models.py`. -/
def send_error_payload (message : String) : Json :=
  .obj [("type", .str "error"), ("message", .str message)]

/-- The reload payload that reaches a client for a coalesced watcher
event: `_handle_file_change` (src/markd/server/app.py) schedules
`manager.send_reload(event.file_path)`, and the per-connection send
serializes that same path, so the payload carries `str(event.file_path)`
verbatim. -/
def reload_payload_for_event (e : WatcherEvent) : Json :=
  send_reload_payload (some e.file_path)

/-- Modelled from the spec: the debounce aggregator
(`DebouncedEventHandler` in `markd/watcher/observer.py`) is not under
`src/`, only its import and its `debounce_ms=150` construction site are.
Spec §4.2: each raw event for a key (re)starts a quiet timer of the
configured duration; an event arriving within the window resets the timer
and the most recent event's data wins; when the timer elapses
uninterrupted exactly one coalesced event fires carrying the last-seen
event's fields.  The input is the arrival-ordered list of
(timestamp in ms, event) pairs for one aggregation key; the output is the
list of downstream coalesced events in firing order. -/
def debounceEmit (window : Nat) : List (Nat × WatcherEvent) → List WatcherEvent
  | [] => []
  | [(_, e)] => [e]
  | (t₁, e₁) :: (t₂, e₂) :: rest =>
    if t₂ - t₁ ≤ window then debounceEmit window ((t₂, e₂) :: rest)
    else e₁ :: debounceEmit window ((t₂, e₂) :: rest)

/-- Every consecutive gap in the arrival-ordered list is at most `w` ms
(the whole list is one burst inside the quiet window). -/
def gapsAtMost (w : Nat) : List (Nat × WatcherEvent) → Bool
  | [] => true
  | [_] => true
  | (t₁, _) :: (t₂, e₂) :: rest =>
    decide (t₂ - t₁ ≤ w) && gapsAtMost w ((t₂, e₂) :: rest)

/-- Every consecutive gap in the arrival-ordered list exceeds `w` ms
(each event sits in its own quiet window). -/
def gapsExceed (w : Nat) : List (Nat × WatcherEvent) → Bool
  | [] => true
  | [_] => true
  | (t₁, _) :: (t₂, e₂) :: rest =>
    decide (w < t₂ - t₁) && gapsExceed w ((t₂, e₂) :: rest)

/-- A registered live-reload connection as the registry sees it: an
identifier, the transport's closed flag, and the stream of messages the
transport has accepted so far. -/
structure WsConn where
  client_id : String
  closed : Bool
  received : List Json

/-- A single transport send: fails exactly when the transport is already
closed, otherwise appends the message to the connection's delivered
stream. -/
def sendTo (c : WsConn) (msg : Json) : Except String WsConn :=
  if c.closed then Except.error "connection closed"
  else Except.ok { c with received := c.received ++ [msg] }

/-- Modelled from the spec: `ConnectionManager.broadcast`
(`markd/server/websocket.py`) is not under `src/`, only its callers and
`__init__` re-export are.  Spec §4.5: take a snapshot of the current
members, attempt delivery to each independently — a send failure on one
connection must not abort delivery to the others — and remove each failed
connection from the registry instead of raising to the caller.  The
function returns the new registry; its totality is the no-exception
guarantee. -/
def broadcast (registry : List WsConn) (msg : Json) : List WsConn :=
  (registry.map fun c => sendTo c msg).filterMap fun r =>
    match r with
    | Except.ok c => some c
    | Except.error _ => none

/-- State of the cooperative scheduler's event loop as
`_handle_file_change` observes it (`loop.is_running()`). -/
structure EventLoopState where
  running : Bool

/-- What `future.result(timeout=0.5)` did for one submitted broadcast:
the scheduling completed inside the wait, timed out, or raised. -/
inductive ScheduleOutcome where
  | completed : ScheduleOutcome
  | timedOut : ScheduleOutcome
  | raised : String → ScheduleOutcome

/-- Result of the watcher-thread handoff `_handle_file_change`
(src/markd/server/app.py): the event was ignored (not reload-worthy), the
reload broadcast was scheduled and acknowledged, the attempt failed and
was logged (exception or timeout branch), or the loop was unavailable and
the event was dropped with a warning.  The type is the whole codomain —
the handler returns in every case, so nothing propagates to the watcher
thread. -/
inductive HandleResult where
  | ignored : HandleResult
  | reloadTriggered : HandleResult
  | failedLogged : String → HandleResult
  | loopUnavailable : HandleResult
deriving DecidableEq, Repr

/-- Milliseconds `_handle_file_change` waits on the future for the
acknowledgment that the broadcast coroutine was scheduled
(`future.result(timeout=0.5)`). -/
def BRIDGE_WAIT_TIMEOUT_MS : Nat := 500

/-- The body of the `try` block in `_handle_file_change`:
`asyncio.run_coroutine_threadsafe` + `future.result(timeout=0.5)`, which
either returns or raises (`TimeoutError` or the exception raised by the
scheduled coroutine). -/
def schedule_and_wait (outcome : ScheduleOutcome) : Except String Unit :=
  match outcome with
  | .completed => Except.ok ()
  | .timedOut => Except.error "future.result timed out after 0.5 s"
  | .raised m => Except.error m

/-- `_handle_file_change(app, event)` from `src/markd/server/app.py`:
nothing happens unless `event.should_trigger_reload()`; with a live
running loop the broadcast is submitted and awaited for 0.5 s, any
exception being caught and logged; with no loop, or a loop that is not
running, the event is dropped with a logged warning. -/
def handle_file_change (event : WatcherEvent) (loop : Option EventLoopState)
    (outcome : ScheduleOutcome) : HandleResult :=
  if event.should_trigger_reload then
    match loop with
    | some l =>
      if l.running then
        match schedule_and_wait outcome with
        | Except.ok _ => .reloadTriggered
        | Except.error m => .failedLogged ("Failed to trigger reload: " ++ m)
      else .loopUnavailable
    | none => .loopUnavailable
  else .ignored

/-- The 403 detail string of the API handlers
(`src/markd/server/routers/v1/api.py` and the `/raw` handlers in
`app.py`): `HTTPException(status_code=403, detail="Access forbidden")`,
a constant. -/
def api403Detail : String := "Access forbidden"

/-- The 403 error-page detail of `view_file` in
`src/markd/server/app.py`: a constant template context value. -/
def view403Detail : String := "You don't have permission to access this file."

/-- A concrete serve tree used by the witnesses: `/home/docs` is the
serve root holding `a.md`, and `/secret` lies outside it. -/
def fsDemo : Node :=
  .dir [("home", .dir [("docs", .dir [("a.md", .file)])]), ("secret", .file)]

/-- A concrete tree with a symlink planted inside the root:
`/home/docs/link` points at `/etc`, which lies outside `/home/docs`. -/
def fsLink : Node :=
  .dir [("home", .dir [("docs", .dir [("link", .symlink ⟨true, ["etc"]⟩)])]),
        ("etc", .dir [("passwd", .file)])]

/-- A raw markdown watcher event at time `t` ms, used by the debounce
witnesses. -/
def mkEv (t : Nat) : WatcherEvent :=
  ⟨"modified", ⟨true, ["notes", "a.md"]⟩, (t : ℚ)⟩

/-- The components `segs`, taken from under the canonical prefix `base`,
are a plain chain of real directories: no `.` or `..` components, every
step an existing directory (in particular not a symlink).  A serve root
in canonical form satisfies this, and along such a chain resolution is
pure appending. -/
def plainDirChain (fs : Node) : List String → List String → Bool
  | _, [] => true
  | base, s :: rest =>
    decide (s ≠ ".") && decide (s ≠ "..") &&
    (match lookupFrom fs (base ++ [s]) with
     | some (.dir _) => true
     | _ => false) &&
    plainDirChain fs (base ++ [s]) rest

/-- Any `SecurityError` produced by `validate_path` carries exactly the
message built from the nominal requested path. -/
theorem validate_secErr_msg (fs : Node) (cwd : List String) (fuel : Nat)
    (requested root : PyPath) (m : String)
    (h : validate_path fs cwd fuel requested root
          = some (.securityError m)) :
    m = secMsg requested := by
  unfold validate_path at h
  split at h
  · split at h
    · split at h <;> simp_all
    · simp_all
  · simp_all

/-- C1: `validate_path` raises `SecurityError` exactly when the resolved
`root / requested` is not contained in the resolved root, raises
`FileNotFoundError` exactly when it is contained but missing, and
otherwise returns the resolved absolute path. -/
theorem validate_path_trichotomy (fs : Node) (cwd : List String) (fuel : Nat)
    (requested root : PyPath) (ar aq : List String)
    (hr : resolveP fs cwd fuel root = some ar)
    (hq : resolveP fs cwd fuel (joinP root requested) = some aq) :
    (validate_path fs cwd fuel requested root
        = some (.securityError (secMsg requested))
      ↔ ar.isPrefixOf aq = false)
  ∧ (validate_path fs cwd fuel requested root
        = some (.notFound (notFoundMsg requested))
      ↔ (ar.isPrefixOf aq = true ∧ existsPath fs aq = false))
  ∧ (validate_path fs cwd fuel requested root = some (.ok aq)
      ↔ (ar.isPrefixOf aq = true ∧ existsPath fs aq = true)) := by
  unfold validate_path
  rw [hr, hq]
  by_cases hp : ar.isPrefixOf aq
  · by_cases he : existsPath fs aq
    · simp [hp, he]
    · simp [hp, he]
  · simp [hp]

/-- Witness for C1: under `fsDemo`, `../../secret/missing` escapes the
root `/home/docs` toward a nonexistent target and is rejected with
`SecurityError`, while the resolutions feeding the theorem are concrete. -/
theorem validate_path_trichotomy_witness :
    validate_path fsDemo [] 8 ⟨false, ["..", "..", "secret", "missing"]⟩
        ⟨true, ["home", "docs"]⟩
      = some (.securityError (secMsg ⟨false, ["..", "..", "secret", "missing"]⟩)) :=
  (validate_path_trichotomy fsDemo [] 8 ⟨false, ["..", "..", "secret", "missing"]⟩
      ⟨true, ["home", "docs"]⟩ ["home", "docs"] ["secret", "missing"]
      (by decide) (by decide)).1.mpr (by decide)

/-- C8: `is_safe_path` returns `true` exactly when `validate_path`
returns normally, and returns `false` on either raised error. -/
theorem is_safe_path_iff_validate (fs : Node) (cwd : List String)
    (fuel : Nat) (requested root : PyPath) :
    (is_safe_path fs cwd fuel requested root = true
      ↔ ∃ p, validate_path fs cwd fuel requested root = some (.ok p))
  ∧ (∀ m, validate_path fs cwd fuel requested root = some (.securityError m)
      → is_safe_path fs cwd fuel requested root = false)
  ∧ (∀ m, validate_path fs cwd fuel requested root = some (.notFound m)
      → is_safe_path fs cwd fuel requested root = false) := by
  cases hv : validate_path fs cwd fuel requested root with
  | none => simp [is_safe_path, hv]
  | some r =>
    cases r with
    | ok p => simp [is_safe_path, hv]
    | securityError m => simp [is_safe_path, hv]
    | notFound m => simp [is_safe_path, hv]

/-- Witness for C8: concrete escaping, missing, and valid requests under
`fsDemo` give `false`, `false`, `true` respectively. -/
theorem is_safe_path_iff_validate_witness :
    is_safe_path fsDemo [] 8 ⟨false, ["..", "..", "secret"]⟩ ⟨true, ["home", "docs"]⟩ = false
  ∧ is_safe_path fsDemo [] 8 ⟨false, ["b.md"]⟩ ⟨true, ["home", "docs"]⟩ = false
  ∧ is_safe_path fsDemo [] 8 ⟨false, ["a.md"]⟩ ⟨true, ["home", "docs"]⟩ = true :=
  ⟨(is_safe_path_iff_validate fsDemo [] 8 ⟨false, ["..", "..", "secret"]⟩
      ⟨true, ["home", "docs"]⟩).2.1 (secMsg ⟨false, ["..", "..", "secret"]⟩) (by decide),
   (is_safe_path_iff_validate fsDemo [] 8 ⟨false, ["b.md"]⟩
      ⟨true, ["home", "docs"]⟩).2.2 (notFoundMsg ⟨false, ["b.md"]⟩) (by decide),
   (is_safe_path_iff_validate fsDemo [] 8 ⟨false, ["a.md"]⟩
      ⟨true, ["home", "docs"]⟩).1.mpr ⟨["home", "docs", "a.md"], by decide⟩⟩

/-- C9: the `SecurityError` message is a function of the nominal
requested path alone — two rejections of the same requested path under
different filesystems, working directories, fuels, and roots carry the
same message — and each 403 body shown by the HTTP handlers is a fixed
constant. -/
theorem securityError_output_noninterference
    (fs₁ fs₂ : Node) (cwd₁ cwd₂ : List String) (fuel₁ fuel₂ : Nat)
    (requested root₁ root₂ : PyPath) (m₁ m₂ : String)
    (h₁ : validate_path fs₁ cwd₁ fuel₁ requested root₁
          = some (.securityError m₁))
    (h₂ : validate_path fs₂ cwd₂ fuel₂ requested root₂
          = some (.securityError m₂)) :
    m₁ = secMsg requested ∧ m₂ = secMsg requested ∧ m₁ = m₂
  ∧ api403Detail = "Access forbidden"
  ∧ view403Detail = "You don't have permission to access this file." := by
  have e₁ := validate_secErr_msg fs₁ cwd₁ fuel₁ requested root₁ m₁ h₁
  have e₂ := validate_secErr_msg fs₂ cwd₂ fuel₂ requested root₂ m₂ h₂
  exact ⟨e₁, e₂, e₁.trans e₂.symm, rfl, rfl⟩

/-- Witness for C9: the same traversal request rejected under the plain
tree and under the symlink tree (with different roots and fuels) yields
one identical message. -/
theorem securityError_output_noninterference_witness :
    secMsg ⟨false, ["..", "..", "etc"]⟩ = secMsg ⟨false, ["..", "..", "etc"]⟩
  ∧ secMsg ⟨false, ["..", "..", "etc"]⟩ = secMsg ⟨false, ["..", "..", "etc"]⟩
  ∧ secMsg ⟨false, ["..", "..", "etc"]⟩ = secMsg ⟨false, ["..", "..", "etc"]⟩
  ∧ api403Detail = "Access forbidden"
  ∧ view403Detail = "You don't have permission to access this file." :=
  securityError_output_noninterference fsDemo fsLink [] [] 8 9
    ⟨false, ["..", "..", "etc"]⟩ ⟨true, ["home", "docs"]⟩ ⟨true, ["home", "docs"]⟩
    (secMsg ⟨false, ["..", "..", "etc"]⟩) (secMsg ⟨false, ["..", "..", "etc"]⟩)
    (by decide) (by decide)

/-- C10: joining the root with an absolute requested path discards the
root, so `validate_path` decides containment and existence on the
absolute request itself: inside-and-existing returns the resolved path
(the path itself when already canonical), outside raises
`SecurityError`. -/
theorem absolute_request_discards_root (fs : Node) (cwd : List String)
    (fuel : Nat) (requested root : PyPath) (ar aq : List String)
    (habs : requested.isAbs = true)
    (hr : resolveP fs cwd fuel root = some ar)
    (hq : resolveP fs cwd fuel requested = some aq) :
    joinP root requested = requested
  ∧ (ar.isPrefixOf aq = true → existsPath fs aq = true →
      validate_path fs cwd fuel requested root = some (.ok aq))
  ∧ (aq = requested.segs → ar.isPrefixOf aq = true → existsPath fs aq = true →
      validate_path fs cwd fuel requested root = some (.ok requested.segs))
  ∧ (ar.isPrefixOf aq = false →
      validate_path fs cwd fuel requested root
        = some (.securityError (secMsg requested))) := by
  have hj : joinP root requested = requested := by
    unfold joinP
    rw [habs]
    simp
  refine ⟨hj, ?_, ?_, ?_⟩
  · intro hp he
    unfold validate_path
    rw [hj, hr, hq]
    simp [hp, he]
  · intro heq hp he
    subst heq
    unfold validate_path
    rw [hj, hr, hq]
    simp [hp, he]
  · intro hp
    unfold validate_path
    rw [hj, hr, hq]
    simp [hp]

/-- Witness for C10: under `fsDemo` with root `/home/docs`, the canonical
absolute request `/home/docs/a.md` is returned unchanged, and the
absolute request `/secret` (inside the lexical join of nothing, outside
the root) is rejected — the root is never prepended. -/
theorem absolute_request_discards_root_witness :
    (joinP ⟨true, ["home", "docs"]⟩ ⟨true, ["home", "docs", "a.md"]⟩
      = ⟨true, ["home", "docs", "a.md"]⟩)
  ∧ validate_path fsDemo [] 8 ⟨true, ["home", "docs", "a.md"]⟩ ⟨true, ["home", "docs"]⟩
      = some (.ok ["home", "docs", "a.md"])
  ∧ validate_path fsDemo [] 8 ⟨true, ["secret"]⟩ ⟨true, ["home", "docs"]⟩
      = some (.securityError (secMsg ⟨true, ["secret"]⟩)) :=
  ⟨(absolute_request_discards_root fsDemo [] 8 ⟨true, ["home", "docs", "a.md"]⟩
      ⟨true, ["home", "docs"]⟩ ["home", "docs"] ["home", "docs", "a.md"]
      (by decide) (by decide) (by decide)).1,
   (absolute_request_discards_root fsDemo [] 8 ⟨true, ["home", "docs", "a.md"]⟩
      ⟨true, ["home", "docs"]⟩ ["home", "docs"] ["home", "docs", "a.md"]
      (by decide) (by decide) (by decide)).2.2.1 (by decide) (by decide) (by decide),
   (absolute_request_discards_root fsDemo [] 8 ⟨true, ["secret"]⟩
      ⟨true, ["home", "docs"]⟩ ["home", "docs"] ["secret"]
      (by decide) (by decide) (by decide)).2.2.2 (by decide)⟩

/-- Along a plain chain of directories, `resolveSegs` appends the chain
to the prefix and continues, spending one unit of fuel per component. -/
theorem resolveSegs_plain (fs : Node) :
    ∀ (segs : List String) (n : Nat) (base rest : List String),
    plainDirChain fs base segs = true →
    resolveSegs fs (segs.length + n) base (segs ++ rest)
      = resolveSegs fs n (base ++ segs) rest := by
  intro segs
  induction segs with
  | nil =>
    intro n base rest _
    simp
  | cons s segs ih =>
    intro n base rest h
    rw [plainDirChain] at h
    simp only [Bool.and_eq_true, decide_eq_true_eq] at h
    obtain ⟨⟨⟨h1, h2⟩, h3⟩, h4⟩ := h
    obtain ⟨es, hes⟩ : ∃ es, lookupFrom fs (base ++ [s]) = some (.dir es) := by
      cases hl : lookupFrom fs (base ++ [s]) with
      | none => rw [hl] at h3; simp at h3
      | some node =>
        cases node with
        | file => rw [hl] at h3; simp at h3
        | dir es => exact ⟨es, rfl⟩
        | symlink t => rw [hl] at h3; simp at h3
    have hfuel : (s :: segs).length + n = (segs.length + n) + 1 := by
      simp [List.length_cons]
      omega
    rw [hfuel, List.cons_append, resolveSegs, if_neg h1, if_neg h2, hes]
    have := ih n (base ++ [s]) rest h4
    rw [this, List.append_assoc]
    simp

/-- C2: a symlink planted inside the root and pointing outside it is
rejected.  With the root a canonical chain of real directories, a
requested path that traverses a symlink child whose resolved target lies
outside the root makes `validate_path` raise `SecurityError`: containment
is decided on the symlink-resolved target, never on the nominal joined
path (which sits lexically inside the root). -/
theorem symlink_escape_rejected (fs : Node) (cwd : List String)
    (rootSegs ts : List String) (s : String) (tgt : PyPath) (m : Nat)
    (hchain : plainDirChain fs [] rootSegs = true)
    (hs1 : s ≠ ".") (hs2 : s ≠ "..")
    (hlink : lookupFrom fs (rootSegs ++ [s]) = some (.symlink tgt))
    (htgt : resolveSegs fs m (if tgt.isAbs then [] else rootSegs) tgt.segs
            = some ts)
    (hout : rootSegs.isPrefixOf ts = false) :
    validate_path fs cwd (rootSegs.length + (m + 1)) ⟨false, [s]⟩ ⟨true, rootSegs⟩
      = some (.securityError (secMsg ⟨false, [s]⟩)) := by
  have hroot : resolveP fs cwd (rootSegs.length + (m + 1)) ⟨true, rootSegs⟩
      = some rootSegs := by
    have h0 := resolveSegs_plain fs rootSegs (m + 1) [] [] hchain
    simp only [List.append_nil, List.nil_append, resolveSegs] at h0
    simpa [resolveP] using h0
  have hjoin : resolveP fs cwd (rootSegs.length + (m + 1))
      (joinP ⟨true, rootSegs⟩ ⟨false, [s]⟩) = some ts := by
    have h0 := resolveSegs_plain fs rootSegs (m + 1) [] [s] hchain
    simp only [List.nil_append] at h0
    have h1 : resolveSegs fs (m + 1) rootSegs [s] = some ts := by
      simp only [resolveSegs, if_neg hs1, if_neg hs2, hlink, List.append_nil]
      exact htgt
    rw [h1] at h0
    simpa [resolveP, joinP] using h0
  unfold validate_path
  rw [hroot, hjoin]
  simp [hout]

/-- Witness for C2: in `fsLink`, `/home/docs/link` is a symlink to
`/etc`; requesting `link` under root `/home/docs` is rejected even though
the nominal join `/home/docs/link` sits lexically inside the root. -/
theorem symlink_escape_rejected_witness :
    validate_path fsLink [] 4 ⟨false, ["link"]⟩ ⟨true, ["home", "docs"]⟩
      = some (.securityError (secMsg ⟨false, ["link"]⟩))
  ∧ ["home", "docs"].isPrefixOf (["home", "docs"] ++ ["link"]) = true :=
  ⟨symlink_escape_rejected fsLink [] ["home", "docs"] ["etc"] "link"
      ⟨true, ["etc"]⟩ 1 (by decide) (by decide) (by decide) rfl
      (by decide) (by decide),
   by decide⟩

/-- A burst whose consecutive gaps all stay within the window coalesces
into the single last-seen event. -/
theorem debounceEmit_burst (w : Nat) :
    ∀ (evs : List (Nat × WatcherEvent)) (t : Nat) (e : WatcherEvent),
    gapsAtMost w ((t, e) :: evs) = true →
    debounceEmit w ((t, e) :: evs) = [evs.foldl (fun _ p => p.2) e] := by
  intro evs
  induction evs with
  | nil =>
    intro t e _
    simp [debounceEmit]
  | cons y rest ih =>
    intro t e h
    obtain ⟨t₂, e₂⟩ := y
    rw [gapsAtMost] at h
    simp only [Bool.and_eq_true, decide_eq_true_eq] at h
    obtain ⟨h1, h2⟩ := h
    rw [debounceEmit, if_pos h1, ih t₂ e₂ h2]
    simp

/-- Events whose consecutive gaps all exceed the window each fire their
own downstream event, in order. -/
theorem debounceEmit_spaced (w : Nat) :
    ∀ (evs : List (Nat × WatcherEvent)) (t : Nat) (e : WatcherEvent),
    gapsExceed w ((t, e) :: evs) = true →
    debounceEmit w ((t, e) :: evs) = ((t, e) :: evs).map Prod.snd := by
  intro evs
  induction evs with
  | nil =>
    intro t e _
    simp [debounceEmit]
  | cons y rest ih =>
    intro t e h
    obtain ⟨t₂, e₂⟩ := y
    rw [gapsExceed] at h
    simp only [Bool.and_eq_true, decide_eq_true_eq] at h
    obtain ⟨h1, h2⟩ := h
    have hif : ¬ (t₂ - t ≤ w) := by omega
    rw [debounceEmit, if_neg hif, ih t₂ e₂ h2]
    simp

/-- C3: with the sliding-window debounce, any nonempty run of raw events
for one key whose consecutive gaps stay within the quiet window emits
exactly one downstream event carrying the last-seen event's fields, while
a run whose consecutive gaps all exceed the window emits one downstream
event per raw event; the configured default window is 150 ms. -/
theorem debounce_coalescing (w t : Nat) (e : WatcherEvent)
    (evs : List (Nat × WatcherEvent)) :
    DEBOUNCE_DELAY_MS = 150
  ∧ (gapsAtMost w ((t, e) :: evs) = true →
      debounceEmit w ((t, e) :: evs) = [evs.foldl (fun _ p => p.2) e])
  ∧ (gapsExceed w ((t, e) :: evs) = true →
      debounceEmit w ((t, e) :: evs) = ((t, e) :: evs).map Prod.snd) :=
  ⟨rfl, debounceEmit_burst w evs t e, debounceEmit_spaced w evs t e⟩

/-- Witness for C3: five raw events 100 ms apart (inside the 150 ms
window) yield exactly the one last event; five events 200 ms apart yield
all five. -/
theorem debounce_coalescing_witness :
    debounceEmit DEBOUNCE_DELAY_MS
        [(0, mkEv 0), (100, mkEv 100), (200, mkEv 200), (300, mkEv 300), (400, mkEv 400)]
      = [mkEv 400]
  ∧ debounceEmit DEBOUNCE_DELAY_MS
        [(0, mkEv 0), (200, mkEv 200), (400, mkEv 400), (600, mkEv 600), (800, mkEv 800)]
      = [mkEv 0, mkEv 200, mkEv 400, mkEv 600, mkEv 800] := by
  constructor
  · have h := (debounce_coalescing DEBOUNCE_DELAY_MS 0 (mkEv 0)
      [(100, mkEv 100), (200, mkEv 200), (300, mkEv 300), (400, mkEv 400)]).2.1
      (by decide)
    rw [h]
    decide
  · have h := (debounce_coalescing DEBOUNCE_DELAY_MS 0 (mkEv 0)
      [(200, mkEv 200), (400, mkEv 400), (600, mkEv 600), (800, mkEv 800)]).2.2
      (by decide)
    rw [h]
    decide

/-- C4: `should_trigger_reload` is true exactly when the lower-cased
suffix of the file name is `.md` or `.markdown` or some path part equals
`templates` or `static`; in particular it accepts `notes/readme.md` and
`static/app.css` and rejects `notes/data.json`. -/
theorem should_trigger_reload_spec :
    (∀ e : WatcherEvent,
      e.should_trigger_reload = true ↔
        (strLower (pySuffix (pyName e.file_path)) = ".md"
         ∨ strLower (pySuffix (pyName e.file_path)) = ".markdown"
         ∨ "templates" ∈ pyParts e.file_path
         ∨ "static" ∈ pyParts e.file_path))
  ∧ WatcherEvent.should_trigger_reload ⟨"modified", ⟨false, ["notes", "readme.md"]⟩, 0⟩ = true
  ∧ WatcherEvent.should_trigger_reload ⟨"modified", ⟨false, ["static", "app.css"]⟩, 0⟩ = true
  ∧ WatcherEvent.should_trigger_reload ⟨"modified", ⟨false, ["notes", "data.json"]⟩, 0⟩ = false := by
  refine ⟨?_, by decide, by decide, by decide⟩
  intro e
  simp [WatcherEvent.should_trigger_reload, WatcherEvent.is_markdown_file,
    List.contains, List.elem_iff, Bool.or_eq_true, or_assoc]

/-- C5 counterexample: for the coalesced event on the absolute path
`/home/user/notes/a.md` under serve root `/home/user/notes`, the reload
payload carries the absolute string, not a path relative to the root
(which would be `a.md`). -/
theorem reload_payload_relative_counterexample :
    jsonField
        (reload_payload_for_event ⟨"modified", ⟨true, ["home", "user", "notes", "a.md"]⟩, 0⟩)
        "path"
      = some (.str "/home/user/notes/a.md")
  ∧ ("/home/user/notes/a.md" : String) ≠ pathStr ⟨false, ["a.md"]⟩
  ∧ ("/home/user/notes/a.md" : String) = "/" ++ "home/user/notes/a.md" :=
  ⟨rfl, by decide, by decide⟩

/-- C5 amended: every reload notification is a JSON object of shape
`\x7b"type": "reload", "path": p\x7d` where `p` is the string of the
watcher event's `file_path` exactly as carried on the event — an absolute
path, since `WatcherEvent.file_path` is absolute — or JSON null when no
path applies. -/
theorem reload_payload_shape (e : WatcherEvent) :
    send_reload_payload none = .obj [("type", .str "reload"), ("path", .null)]
  ∧ (∀ p, send_reload_payload (some p)
        = .obj [("type", .str "reload"), ("path", .str (pathStr p))])
  ∧ reload_payload_for_event e
      = .obj [("type", .str "reload"), ("path", .str (pathStr e.file_path))]
  ∧ (e.file_path.isAbs = true →
      ∃ rest, pathStr e.file_path = "/" ++ rest) := by
  refine ⟨rfl, fun p => rfl, rfl, fun habs => ?_⟩
  exact ⟨String.intercalate "/" e.file_path.segs, by simp [pathStr, habs]⟩

/-- Witness for C5's amended claim at a concrete absolute event path. -/
theorem reload_payload_shape_witness :
    reload_payload_for_event ⟨"created", ⟨true, ["home", "user", "notes", "b.md"]⟩, 1⟩
      = .obj [("type", .str "reload"), ("path", .str "/home/user/notes/b.md")]
  ∧ ∃ rest, pathStr (⟨true, ["home", "user", "notes", "b.md"]⟩ : PyPath) = "/" ++ rest :=
  ⟨(reload_payload_shape ⟨"created", ⟨true, ["home", "user", "notes", "b.md"]⟩, 1⟩).2.2.1,
   (reload_payload_shape ⟨"created", ⟨true, ["home", "user", "notes", "b.md"]⟩, 1⟩).2.2.2 rfl⟩

/-- One step of `broadcast`: deliver to the head, keep it on success,
drop it on failure, then continue with the tail. -/
theorem broadcast_cons (x : WsConn) (reg : List WsConn) (msg : Json) :
    broadcast (x :: reg) msg
      = match sendTo x msg with
        | Except.ok c => c :: broadcast reg msg
        | Except.error _ => broadcast reg msg := by
  cases h : sendTo x msg with
  | ok c => simp [broadcast, h]
  | error m => simp [broadcast, h]

/-- C6: broadcasting to a registry holding live connection `A` and a
connection `B` whose transport is closed delivers the message to `A`,
removes `B`, and returns a registry (`broadcast` is total, so nothing
propagates to its caller); moreover, in any registry every connection
with a live transport receives the message — one dead peer never aborts
delivery to the others. -/
theorem broadcast_dead_peer (A B : WsConn) (msg : Json)
    (hA : A.closed = false) (hB : B.closed = true) :
    broadcast [A, B] msg = [{ A with received := A.received ++ [msg] }]
  ∧ (∀ (registry : List WsConn) (c : WsConn), c ∈ registry → c.closed = false →
      { c with received := c.received ++ [msg] } ∈ broadcast registry msg) := by
  constructor
  · simp [broadcast, sendTo, hA, hB]
  · intro registry
    induction registry with
    | nil => intro c hc _; simp at hc
    | cons x reg ih =>
      intro c hc hcl
      rw [broadcast_cons]
      rcases List.mem_cons.mp hc with hx | hmem
      · subst hx
        simp [sendTo, hcl]
      · cases h : sendTo x msg with
        | ok d => exact List.mem_cons_of_mem d (ih c hmem hcl)
        | error m => exact ih c hmem hcl

/-- Witness for C6: concrete registry of one live and one closed
connection. -/
theorem broadcast_dead_peer_witness :
    broadcast [⟨"a", false, []⟩, ⟨"b", true, []⟩] (send_reload_payload none)
      = [⟨"a", false, [send_reload_payload none]⟩] :=
  (broadcast_dead_peer ⟨"a", false, []⟩ ⟨"b", true, []⟩
    (send_reload_payload none) rfl rfl).1

/-- C7: the watcher-to-scheduler handoff waits `future.result` with a
0.5 s bound; when the loop is absent or not running the event is dropped
(`loopUnavailable`), when the wait times out the event is dropped with a
logged error, and in every case the handoff returns one of the four
modelled outcomes — nothing escapes to the watcher thread. -/
theorem handle_file_change_nonfatal (event : WatcherEvent)
    (loop : Option EventLoopState) (outcome : ScheduleOutcome) :
    BRIDGE_WAIT_TIMEOUT_MS = 500
  ∧ (event.should_trigger_reload = true → loop = none →
      handle_file_change event loop outcome = .loopUnavailable)
  ∧ (∀ l, event.should_trigger_reload = true → loop = some l → l.running = false →
      handle_file_change event loop outcome = .loopUnavailable)
  ∧ (∀ l, event.should_trigger_reload = true → loop = some l → l.running = true →
      outcome = .timedOut →
      handle_file_change event loop outcome
        = .failedLogged "Failed to trigger reload: future.result timed out after 0.5 s")
  ∧ (handle_file_change event loop outcome = .ignored
     ∨ handle_file_change event loop outcome = .reloadTriggered
     ∨ (∃ m, handle_file_change event loop outcome = .failedLogged m)
     ∨ handle_file_change event loop outcome = .loopUnavailable) := by
  refine ⟨rfl, ?_, ?_, ?_, ?_⟩
  · intro ht hl
    subst hl
    simp [handle_file_change, ht]
  · intro l ht hl hr
    subst hl
    simp [handle_file_change, ht, hr]
  · intro l ht hl hr ho
    subst hl
    subst ho
    simp [handle_file_change, ht, hr, schedule_and_wait]
  · unfold handle_file_change
    by_cases ht : event.should_trigger_reload = true
    · cases loop with
      | none => simp [ht]
      | some l =>
        by_cases hr : l.running = true
        · cases ho : schedule_and_wait outcome with
          | ok u => simp [ht, hr, ho]
          | error m =>
            refine Or.inr (Or.inr (Or.inl ⟨"Failed to trigger reload: " ++ m, ?_⟩))
            simp [ht, hr, ho]
        · simp [ht, hr]
    · simp [ht]

/-- Witness for C7: a markdown event with no loop available is dropped as
`loopUnavailable`, and with a running loop but a timed-out future it is
dropped with the logged error. -/
theorem handle_file_change_nonfatal_witness :
    handle_file_change (mkEv 0) none .completed = .loopUnavailable
  ∧ handle_file_change (mkEv 0) (some ⟨true⟩) .timedOut
      = .failedLogged "Failed to trigger reload: future.result timed out after 0.5 s" :=
  ⟨(handle_file_change_nonfatal (mkEv 0) none .completed).2.1 (by decide) rfl,
   (handle_file_change_nonfatal (mkEv 0) (some ⟨true⟩) .timedOut).2.2.2.1
     ⟨true⟩ (by decide) rfl rfl rfl⟩
